import Mathlib

/-!
Verification of the MFO Offers API (`main.py`, `schemas.py`).

The repository is a small FastAPI service over a document store:
a filterable listing endpoint, a creation endpoint, an idempotent seed
endpoint and a diagnostic endpoint.  We embed the data model
(`schemas.Offer`), the query-filter builder and the endpoint handlers as
executable Lean functions and prove the spec's claims about them.

Numbers: Python floats in this code hold exact one-decimal values
(APR, rating, approval rate); we model them as rationals (`ℚ`), on which
the comparisons `≤`/`≥` agree with the float comparisons at every value
occurring here.  Python ints are modelled as `ℤ`.

The document store itself (`database.py` with `db`, `create_document`,
`get_documents`) is imported by `main.py` but is not part of the given
sources; the collection is modelled as a `List Offer` and the store's
filter evaluation is modelled from the spec (see `matchesFilter`).
-/

/-- The `Offer` record shape of `schemas.py` (field names and types).
The per-field `Field(...)` constraints are the separate predicate
`Offer.valid`; the `HttpUrl` parse requirement on `link` is not modelled
(no claim depends on it), the field is kept as an optional string. -/
structure Offer where
  name : String
  apr : ℚ
  min_amount : ℤ
  max_amount : ℤ
  term_min_days : ℤ
  term_max_days : ℤ
  approval_rate : Option ℚ
  rating : Option ℚ
  description : Option String
  link : Option String
  tags : List String
deriving DecidableEq, Repr

/-- The declarative `Field` constraints of `schemas.Offer`, as checked by
request-body validation: `apr ≥ 0`, `min_amount ≥ 0`, `max_amount ≥ 0`,
`term_min_days ≥ 1`, `term_max_days ≥ 1`, `approval_rate ∈ [0,100]` and
`rating ∈ [0,5]` when present.  There is no cross-field check. -/
def Offer.valid (o : Offer) : Bool :=
  decide (0 ≤ o.apr) &&
  decide (0 ≤ o.min_amount) &&
  decide (0 ≤ o.max_amount) &&
  decide (1 ≤ o.term_min_days) &&
  decide (1 ≤ o.term_max_days) &&
  (match o.approval_rate with
   | none => true
   | some v => decide (0 ≤ v) && decide (v ≤ 100)) &&
  (match o.rating with
   | none => true
   | some v => decide (0 ≤ v) && decide (v ≤ 5))

/-- The Mongo filter document built by `list_offers` (`main.py` 44-63).
Each key is written at most once per request, so the dict is a record of
optional clauses: `apr: {$lte}`, `max_amount: {$gte}`, `min_amount: {$lte}`,
`rating: {$gte}` and the `$or` text clause carrying the query string. -/
structure FilterDict where
  apr_lte : Option ℚ
  max_amount_gte : Option ℤ
  min_amount_lte : Option ℤ
  rating_gte : Option ℚ
  or_clause : Option String
deriving DecidableEq, Repr

/-- The filter construction of `list_offers` (`main.py` 44-63): start from
the empty dict, add one clause per supplied parameter; `min_amount` filters
the stored `max_amount` field and `max_amount` the stored `min_amount`
field (the deliberate swap); `q` is skipped when `None` or empty
(Python truthiness of `if q:`). -/
def build_filter (q : Option String) (max_apr : Option ℚ)
    (min_amount : Option ℤ) (max_amount : Option ℤ)
    (min_rating : Option ℚ) : FilterDict :=
  let filter_dict : FilterDict :=
    { apr_lte := none, max_amount_gte := none, min_amount_lte := none,
      rating_gte := none, or_clause := none }
  let filter_dict :=
    match max_apr with
    | some v => { filter_dict with apr_lte := some v }
    | none => filter_dict
  let filter_dict :=
    match min_amount with
    | some v => { filter_dict with max_amount_gte := some v }
    | none => filter_dict
  let filter_dict :=
    match max_amount with
    | some v => { filter_dict with min_amount_lte := some v }
    | none => filter_dict
  let filter_dict :=
    match min_rating with
    | some v => { filter_dict with rating_gte := some v }
    | none => filter_dict
  let filter_dict :=
    match q with
    | some s => if s ≠ "" then { filter_dict with or_clause := some s } else filter_dict
    | none => filter_dict
  filter_dict

/-- ASCII lower-casing of a string, character list view. -/
def lowerChars (s : String) : List Char :=
  s.data.map Char.toLower

/-- Case-insensitive substring test: does `needle` occur as a contiguous
run inside `haystack` after lower-casing both? -/
def containsSub (needle : List Char) : List Char → Bool
  | [] => needle.isEmpty
  | c :: rest => needle.isPrefixOf (c :: rest) || containsSub needle rest

/-- The `$regex`/`$options: "i"` clause of the `q` search, read as the spec
reads it: `q` is a case-insensitive substring of the name (regex
metacharacters are out of scope for the spec and not modelled). -/
def nameMatches (q : String) (name : String) : Bool :=
  containsSub (lowerChars q) (lowerChars name)

/-- Modelled from the spec: the document store evaluating a filter against
a stored record.  `database.py` (`db`, `get_documents`) is imported by
`main.py` but absent from the sources, and the match semantics belong to
the external store.  Spec §4.1: each present clause must hold (implicit
AND); `apr ≤ v`, stored `max_amount ≥ v`, stored `min_amount ≤ v`,
`rating ≥ v` where a record lacking `rating` never matches that clause;
the `$or` clause holds when the query string is a case-insensitive
substring of `name` or an exact member of `tags`. -/
def matchesFilter (f : FilterDict) (d : Offer) : Bool :=
  (match f.apr_lte with
   | none => true
   | some v => decide (d.apr ≤ v)) &&
  (match f.max_amount_gte with
   | none => true
   | some v => decide (v ≤ d.max_amount)) &&
  (match f.min_amount_lte with
   | none => true
   | some v => decide (d.min_amount ≤ v)) &&
  (match f.rating_gte with
   | none => true
   | some v =>
     match d.rating with
     | none => false
     | some r => decide (v ≤ r)) &&
  (match f.or_clause with
   | none => true
   | some s => nameMatches s d.name || d.tags.contains s)

/-- Modelled from the spec: `get_documents` of the absent `database.py`
returns the stored records of the collection that match the filter, in
store order. -/
def get_documents (store : List Offer) (f : FilterDict) : List Offer :=
  store.filter (matchesFilter f)

/-- The listing endpoint `GET /api/offers` (`main.py` 33-72): build the
filter from the five optional query parameters and query the `offer`
collection.  The response-shaping step (stringifying the store-assigned
`_id` into `id`) adds no information about which records are returned and
is not modelled; the result is the matched records in store order. -/
def list_offers (store : List Offer) (q : Option String) (max_apr : Option ℚ)
    (min_amount : Option ℤ) (max_amount : Option ℤ)
    (min_rating : Option ℚ) : List Offer :=
  get_documents store (build_filter q max_apr min_amount max_amount min_rating)

/-- Response of `POST /api/offers`: a 201 with the new identifier, or the
422 validation rejection issued by the framework before the handler runs.
The store-assigned identifier is modelled as the insertion position. -/
inductive CreateResponse where
  | created (id : ℕ)
  | validation_error
deriving DecidableEq, Repr

/-- The creation endpoint `POST /api/offers` (`main.py` 75-81) together
with the request-body validation FastAPI performs against
`OfferCreate = Offer` before the handler runs: an invalid body is rejected
with a client error and the handler (hence the store write) is never
reached; a valid body is appended to the `offer` collection. -/
def create_offer (store : List Offer) (payload : Offer) :
    List Offer × CreateResponse :=
  if payload.valid then
    (store ++ [payload], .created store.length)
  else
    (store, .validation_error)

/-- First sample record of `seed_offers` (`main.py` 96-108). -/
def sample_fast : Offer :=
  { name := "Быстрые Деньги", apr := 29.9, min_amount := 1000,
    max_amount := 50000, term_min_days := 7, term_max_days := 30,
    approval_rate := some 85.0, rating := some 4.6,
    description := some "Мгновенное одобрение и выдача на карту за 5 минут.",
    link := some "https://example.com/fast",
    tags := ["быстро", "онлайн", "на карту"] }

/-- Second sample record of `seed_offers` (`main.py` 109-121). -/
def sample_reliable : Offer :=
  { name := "Надёжный Займ", apr := 24.5, min_amount := 3000,
    max_amount := 70000, term_min_days := 10, term_max_days := 60,
    approval_rate := some 78.0, rating := some 4.4,
    description := some "Без справок и поручителей, прозрачные условия.",
    link := some "https://example.com/reliable",
    tags := ["без справок", "прозрачно"] }

/-- Third sample record of `seed_offers` (`main.py` 122-134). -/
def sample_zaimer : Offer :=
  { name := "Займер", apr := 19.9, min_amount := 5000,
    max_amount := 100000, term_min_days := 15, term_max_days := 90,
    approval_rate := some 70.0, rating := some 4.8,
    description := some "Лучшие ставки для постоянных клиентов.",
    link := some "https://example.com/zaimer",
    tags := ["низкая ставка", "лояльность"] }

/-- Fourth sample record of `seed_offers` (`main.py` 135-147). -/
def sample_rublgo : Offer :=
  { name := "РубльGo", apr := 34.9, min_amount := 1000,
    max_amount := 30000, term_min_days := 7, term_max_days := 45,
    approval_rate := some 90.0, rating := some 4.2,
    description := some "Высокий процент одобрения, первый займ под 0%.",
    link := some "https://example.com/rublgo",
    tags := ["0%", "высокое одобрение"] }

/-- The curated sample list of `seed_offers` (`main.py` 95-148). -/
def sample : List Offer :=
  [sample_fast, sample_reliable, sample_zaimer, sample_rublgo]

/-- Body of the seed endpoint response. -/
structure SeedResult where
  status : String
  inserted : ℕ
  message : Option String
deriving DecidableEq, Repr

/-- The seed endpoint `POST /api/offers/seed` (`main.py` 84-157): if
`count_documents({})` is positive, insert nothing and report zero
inserted with the "already exist" message; otherwise insert the sample
records one at a time, counting insertions.  Returns the new collection
state and the response body. -/
def seed_offers (store : List Offer) : List Offer × SeedResult :=
  if store.length > 0 then
    (store, { status := "ok", inserted := 0, message := some "Offers already exist" })
  else
    let r := sample.foldl (fun acc s => (acc.1 ++ [s], acc.2 + 1)) (store, 0)
    (r.1, { status := "ok", inserted := r.2, message := none })

/-- The states of the global store handle `db` that `/test` distinguishes:
not configured (`db is None`), configured but failing when collections are
listed, or healthy with a database name and collection names. -/
inductive DbState where
  | unconfigured
  | failing (name : String) (err : String)
  | healthy (name : String) (collections : List String)
deriving DecidableEq, Repr

/-- Whether the `DATABASE_URL` and `DATABASE_NAME` environment variables
are set (`main.py` 191-192). -/
structure Env where
  database_url_set : Bool
  database_name_set : Bool
deriving DecidableEq, Repr

/-- The diagnostic response object of `GET /test` (`main.py` 162-169).
The two fields that start out as Python `None` and are always overwritten
before returning (`database_url`, `database_name`) are modelled as
strings, with `""` standing for the never-returned `None`. -/
structure TestResponse where
  backend : String
  database : String
  database_url : String
  database_name : String
  connection_status : String
  collections : List String
deriving DecidableEq, Repr

/-- `db.list_collection_names()` as seen by `/test`: succeeds on a healthy
store, raises (modelled as `Except.error` with the exception text) on a
failing one.  Never called when `db` is unconfigured. -/
def list_collection_names : DbState → Except String (List String)
  | .unconfigured => .error "not connected"
  | .failing _ e => .error e
  | .healthy _ cols => .ok cols

/-- Python string slice `s[:n]`. -/
def takeStr (n : ℕ) (s : String) : String :=
  ⟨s.data.take n⟩

/-- The diagnostic endpoint `GET /test` (`main.py` 160-194).  Every store
interaction is wrapped in try/except in the source, so the handler is a
total function of the store state: the inner exception from
`list_collection_names` is rendered (truncated to 50 characters) into the
`database` status string, the collection list is truncated to 10 names,
and the url/name fields are finally overwritten from the environment. -/
def test_database (db : DbState) (env : Env) : TestResponse :=
  let response : TestResponse :=
    { backend := "✅ Running", database := "❌ Not Available",
      database_url := "", database_name := "",
      connection_status := "Not Connected", collections := [] }
  let response :=
    match db with
    | .unconfigured =>
        { response with database := "⚠️  Available but not initialized" }
    | .failing n e =>
        let response :=
          { response with
            database := "✅ Available"
            database_url := "✅ Configured"
            database_name := n
            connection_status := "Connected" }
        match list_collection_names (.failing n e) with
        | .ok collections =>
            { response with
              collections := collections.take 10
              database := "✅ Connected & Working" }
        | .error err =>
            { response with
              database := "⚠️  Connected but Error: " ++ takeStr 50 err }
    | .healthy n cols =>
        let response :=
          { response with
            database := "✅ Available"
            database_url := "✅ Configured"
            database_name := n
            connection_status := "Connected" }
        match list_collection_names (.healthy n cols) with
        | .ok collections =>
            { response with
              collections := collections.take 10
              database := "✅ Connected & Working" }
        | .error err =>
            { response with
              database := "⚠️  Connected but Error: " ++ takeStr 50 err }
  { response with
    database_url := if env.database_url_set then "✅ Set" else "❌ Not Set",
    database_name := if env.database_name_set then "✅ Set" else "❌ Not Set" }

/-- A JSON value as far as an `Offer` request body needs: strings, exact
numbers, arrays of strings, and null. -/
inductive JVal where
  | str (s : String)
  | num (q : ℚ)
  | arr (xs : List String)
  | null
deriving DecidableEq, Repr

/-- First value stored under key `k` in a JSON object, viewed as a
key-value list. -/
def lookupField (body : List (String × JVal)) (k : String) : Option JVal :=
  match body with
  | [] => none
  | (k₁, v) :: rest => if k₁ = k then some v else lookupField rest k

/-- Read a required string field. -/
def asStr : Option JVal → Option String
  | some (.str s) => some s
  | _ => none

/-- Read a required number field. -/
def asNum : Option JVal → Option ℚ
  | some (.num q) => some q
  | _ => none

/-- Read a required integer field (a number with denominator 1). -/
def asIntVal : Option JVal → Option ℤ
  | some (.num q) => if q.den = 1 then some q.num else none
  | _ => none

/-- Read an optional number field: absent or null parses to `none`. -/
def asOptNum : Option JVal → Option (Option ℚ)
  | none => some none
  | some .null => some none
  | some (.num q) => some (some q)
  | _ => none

/-- Read an optional string field: absent or null parses to `none`. -/
def asOptStr : Option JVal → Option (Option String)
  | none => some none
  | some .null => some none
  | some (.str s) => some (some s)
  | _ => none

/-- Read the `tags` field, defaulting to the empty list when absent. -/
def asTags : Option JVal → Option (List String)
  | none => some []
  | some (.arr xs) => some xs
  | _ => none

/-- The field names declared by `schemas.Offer`. -/
def offer_field_names : List String :=
  ["name", "apr", "min_amount", "max_amount", "term_min_days",
   "term_max_days", "approval_rate", "rating", "description", "link",
   "tags"]

/-- Modelled from the framework defaults the source relies on:
`OfferCreate(Offer)` declares no `extra` policy, so pydantic validation of
a `POST /api/offers` body reads exactly the declared `Offer` fields and
ignores every other key (there is no `id` field to read).  Returns `none`
when a declared field is missing or ill-typed. -/
def parse_offer_create (body : List (String × JVal)) : Option Offer := do
  let name ← asStr (lookupField body "name")
  let apr ← asNum (lookupField body "apr")
  let min_amount ← asIntVal (lookupField body "min_amount")
  let max_amount ← asIntVal (lookupField body "max_amount")
  let term_min_days ← asIntVal (lookupField body "term_min_days")
  let term_max_days ← asIntVal (lookupField body "term_max_days")
  let approval_rate ← asOptNum (lookupField body "approval_rate")
  let rating ← asOptNum (lookupField body "rating")
  let description ← asOptStr (lookupField body "description")
  let link ← asOptStr (lookupField body "link")
  let tags ← asTags (lookupField body "tags")
  pure { name := name, apr := apr, min_amount := min_amount,
         max_amount := max_amount, term_min_days := term_min_days,
         term_max_days := term_max_days, approval_rate := approval_rate,
         rating := rating, description := description, link := link,
         tags := tags }

/-- A well-formed record that carries no rating (all optional fields
absent, every per-field constraint met). -/
def unrated_offer : Offer :=
  { name := "NoRating", apr := 10, min_amount := 0, max_amount := 1000,
    term_min_days := 1, term_max_days := 30, approval_rate := none,
    rating := none, description := none, link := none, tags := [] }

/-- A request body whose `min_amount` violates its `ge=0` field bound. -/
def bad_payload : Offer :=
  { name := "Negative", apr := 0, min_amount := -1, max_amount := 0,
    term_min_days := 1, term_max_days := 1, approval_rate := none,
    rating := none, description := none, link := none, tags := [] }

/-- A payload with `min_amount > max_amount` and
`term_min_days > term_max_days` in which every individual field meets its
own bound. -/
def crossfield_payload : Offer :=
  { name := "Swapped", apr := 10, min_amount := 500, max_amount := 100,
    term_min_days := 30, term_max_days := 7, approval_rate := none,
    rating := none, description := none, link := none, tags := [] }

/-- Closed form of the filter construction: each dict key holds exactly
the clause of its parameter, and `q` contributes only when non-empty. -/
theorem build_filter_eq (q : Option String) (a : Option ℚ) (mi ma : Option ℤ)
    (r : Option ℚ) :
    build_filter q a mi ma r =
      { apr_lte := a, max_amount_gte := mi, min_amount_lte := ma,
        rating_gte := r,
        or_clause := match q with
          | some s => if s = "" then none else some s
          | none => none } := by
  cases q with
  | none => cases a <;> cases mi <;> cases ma <;> cases r <;> rfl
  | some s =>
    by_cases hs : s = "" <;>
      cases a <;> cases mi <;> cases ma <;> cases r <;> simp [build_filter, hs]

/-- A record matches a filter iff it satisfies every present clause. -/
theorem matchesFilter_iff (f : FilterDict) (d : Offer) :
    matchesFilter f d = true ↔
      ((∀ v, f.apr_lte = some v → d.apr ≤ v) ∧
       (∀ v, f.max_amount_gte = some v → v ≤ d.max_amount) ∧
       (∀ v, f.min_amount_lte = some v → d.min_amount ≤ v) ∧
       (∀ v, f.rating_gte = some v → ∃ r, d.rating = some r ∧ v ≤ r) ∧
       (∀ s, f.or_clause = some s → nameMatches s d.name = true ∨ s ∈ d.tags)) := by
  obtain ⟨a, mi, ma, r, oc⟩ := f
  simp only [matchesFilter, Bool.and_eq_true]
  cases a <;> cases mi <;> cases ma <;> cases r <;> cases oc <;>
    cases hd : d.rating <;>
      simp [hd, List.elem_iff, and_assoc]

/-- The seed filter of the example query: `max_apr = 25`, `min_rating = 4.3`. -/
theorem example_filter_fast :
    matchesFilter (build_filter none (some 25) none none (some 4.3))
      sample_fast = false := by
  simp [matchesFilter, build_filter_eq, sample_fast]
  norm_num

/-- The second seed record passes the example filter (24.5 ≤ 25, 4.4 ≥ 4.3). -/
theorem example_filter_reliable :
    matchesFilter (build_filter none (some 25) none none (some 4.3))
      sample_reliable = true := by
  simp [matchesFilter, build_filter_eq, sample_reliable]
  norm_num

/-- The third seed record also passes the example filter
(19.9 ≤ 25, 4.8 ≥ 4.3). -/
theorem example_filter_zaimer :
    matchesFilter (build_filter none (some 25) none none (some 4.3))
      sample_zaimer = true := by
  simp [matchesFilter, build_filter_eq, sample_zaimer]
  norm_num

/-- The fourth seed record fails the example filter (34.9 > 25). -/
theorem example_filter_rublgo :
    matchesFilter (build_filter none (some 25) none none (some 4.3))
      sample_rublgo = false := by
  simp [matchesFilter, build_filter_eq, sample_rublgo]
  norm_num

/-- C1 (counterexample): listing the seed data with `max_apr = 25` and
`min_rating = 4.3` does NOT return exactly the single record named
"Надёжный Займ": the claim as stated is false on the code, because the
record "Займер" (apr 19.9 ≤ 25, rating 4.8 ≥ 4.3) also matches. -/
theorem listing_example_not_single :
    (list_offers sample none (some 25) none none (some 4.3)).map Offer.name
      ≠ ["Надёжный Займ"] := by
  simp only [list_offers, get_documents, sample, List.filter_cons,
    example_filter_fast, example_filter_reliable, example_filter_zaimer,
    example_filter_rublgo]
  simp [sample_reliable, sample_zaimer]

/-- C1 (amended): listing the seed data with `max_apr = 25` and
`min_rating = 4.3` and no other parameters returns exactly two records,
"Надёжный Займ" (apr 24.5 ≤ 25, rating 4.4 ≥ 4.3) and "Займер"
(apr 19.9 ≤ 25, rating 4.8 ≥ 4.3), in store order. -/
theorem listing_example_two_records :
    (list_offers sample none (some 25) none none (some 4.3)).map Offer.name
      = ["Надёжный Займ", "Займер"] := by
  simp only [list_offers, get_documents, sample, List.filter_cons,
    example_filter_fast, example_filter_reliable, example_filter_zaimer,
    example_filter_rublgo]
  simp [sample_reliable, sample_zaimer]

/-- C2: for every combination of the five optional query parameters, a
stored record matches the built filter iff it satisfies every supplied
range constraint (logical AND), with the `q` OR-clause (name match OR tag
membership) combined by AND with the rest; with no parameter supplied the
filter matches every record. -/
theorem filter_combination_and :
    (∀ (q : Option String) (max_apr : Option ℚ)
       (min_amount max_amount : Option ℤ) (min_rating : Option ℚ)
       (d : Offer),
      matchesFilter (build_filter q max_apr min_amount max_amount min_rating) d
          = true ↔
        ((∀ v, max_apr = some v → d.apr ≤ v) ∧
         (∀ v, min_amount = some v → v ≤ d.max_amount) ∧
         (∀ v, max_amount = some v → d.min_amount ≤ v) ∧
         (∀ v, min_rating = some v → ∃ r, d.rating = some r ∧ v ≤ r) ∧
         (∀ s, q = some s → s ≠ "" →
            (nameMatches s d.name = true ∨ s ∈ d.tags)))) ∧
    (∀ d : Offer, matchesFilter (build_filter none none none none none) d
        = true) := by
  constructor
  · intro q a mi ma r d
    rw [build_filter_eq, matchesFilter_iff]
    cases q with
    | none => simp
    | some s => by_cases hs : s = "" <;> simp [hs]
  · intro d
    rw [build_filter_eq, matchesFilter_iff]
    simp

/-- C2 (witness): the parameterless filter matches the first seed record. -/
theorem filter_combination_and_witness :
    matchesFilter (build_filter none none none none none) sample_fast = true :=
  filter_combination_and.2 sample_fast

/-- C3: with `min_amount = v` as the only parameter, a stored record is
listed iff its stored `max_amount` is at least `v`; with `max_amount = w`
as the only parameter, it is listed iff its stored `min_amount` is at most
`w` (the filter fields are swapped relative to the parameter names). -/
theorem amount_filters_swapped (store : List Offer) (r : Offer) (v w : ℤ)
    (h : r ∈ store) :
    (r ∈ list_offers store none none (some v) none none ↔ v ≤ r.max_amount) ∧
    (r ∈ list_offers store none none none (some w) none ↔ r.min_amount ≤ w) := by
  constructor <;>
    simp [list_offers, get_documents, List.mem_filter, h, build_filter_eq,
      matchesFilter_iff]

/-- C3 (witness): in the seed data, `sample_fast` (stored range
1000-50000) is subject to `min_amount = 40000` via its `max_amount` and
to `max_amount = 2000` via its `min_amount`. -/
theorem amount_filters_swapped_witness :
    sample_fast ∈ sample ∧
    ((sample_fast ∈ list_offers sample none none (some 40000) none none ↔
        (40000 : ℤ) ≤ sample_fast.max_amount) ∧
     (sample_fast ∈ list_offers sample none none none (some 2000) none ↔
        sample_fast.min_amount ≤ 2000)) :=
  ⟨by simp [sample],
   amount_filters_swapped sample sample_fast 40000 2000 (by simp [sample])⟩

/-- C4: a non-empty `q` matches a stored record iff `q` is a
case-insensitive substring of its name or an exact member of its tags;
an empty `q` builds the same filter as an absent `q`. -/
theorem q_clause_semantics :
    (∀ (d : Offer) (s : String), s ≠ "" →
      (matchesFilter (build_filter (some s) none none none none) d = true ↔
        nameMatches s d.name = true ∨ s ∈ d.tags)) ∧
    (∀ (max_apr : Option ℚ) (min_amount max_amount : Option ℤ)
       (min_rating : Option ℚ),
      build_filter (some "") max_apr min_amount max_amount min_rating =
        build_filter none max_apr min_amount max_amount min_rating) := by
  constructor
  · intro d s hs
    rw [build_filter_eq, matchesFilter_iff]
    simp [hs]
  · intro a mi ma r
    rw [build_filter_eq, build_filter_eq]
    simp

/-- C4 (witness): the non-empty query "Займ" against the seed record named
"Надёжный Займ" matches through the name clause. -/
theorem q_clause_semantics_witness :
    matchesFilter (build_filter (some "Займ") none none none none)
      sample_reliable = true :=
  (q_clause_semantics.1 sample_reliable "Займ" (by decide)).mpr
    (Or.inl (by decide))

/-- C5: the seed endpoint of a non-empty collection inserts nothing and
reports `inserted: 0` with the "already exist" message; on an empty
collection it inserts exactly the 4 sample records and reports
`inserted: 4`; hence seeding twice from empty inserts 4 then 0. -/
theorem seed_offers_idempotent :
    (∀ store : List Offer, store ≠ [] →
      seed_offers store =
        (store, { status := "ok", inserted := 0,
                  message := some "Offers already exist" })) ∧
    seed_offers [] = (sample, { status := "ok", inserted := 4, message := none }) ∧
    seed_offers (seed_offers []).1 =
      (sample, { status := "ok", inserted := 0,
                 message := some "Offers already exist" }) := by
  refine ⟨?_, rfl, rfl⟩
  intro store h
  match store with
  | a :: l => simp [seed_offers]

/-- C5 (witness): re-seeding the already-seeded collection inserts 0 and
reports the "already exist" message. -/
theorem seed_offers_idempotent_witness :
    sample ≠ [] ∧
    seed_offers sample =
      (sample, { status := "ok", inserted := 0,
                 message := some "Offers already exist" }) :=
  ⟨by simp [sample], seed_offers_idempotent.1 sample (by simp [sample])⟩

/-- C6: every create request whose body violates some field constraint of
the `Offer` schema — a negative `apr`, `min_amount` or `max_amount`, a
term bound below 1, or a present `approval_rate` outside [0,100] or
`rating` outside [0,5] — fails validation and is rejected before the
handler runs: the response is the client-error rejection and the stored
collection is unchanged. -/
theorem create_rejects_invalid_payload (store : List Offer) (p : Offer)
    (h : p.apr < 0 ∨ p.min_amount < 0 ∨ p.max_amount < 0 ∨
         p.term_min_days < 1 ∨ p.term_max_days < 1 ∨
         (∃ v, p.approval_rate = some v ∧ (v < 0 ∨ 100 < v)) ∨
         (∃ v, p.rating = some v ∧ (v < 0 ∨ 5 < v))) :
    p.valid = false ∧
    create_offer store p = (store, CreateResponse.validation_error) := by
  have hv : p.valid = false := by
    rcases h with h | h | h | h | h | hx | hx
    · simp [Offer.valid, not_le.mpr h]
    · simp [Offer.valid, not_le.mpr h]
    · simp [Offer.valid, not_le.mpr h]
    · simp [Offer.valid, not_le.mpr h]
    · simp [Offer.valid, not_le.mpr h]
    · obtain ⟨v, he, h | h⟩ := hx
      · simp [Offer.valid, he, not_le.mpr h]
      · simp [Offer.valid, he, not_le.mpr h]
    · obtain ⟨v, he, h | h⟩ := hx
      · simp [Offer.valid, he, not_le.mpr h]
      · simp [Offer.valid, he, not_le.mpr h]
  exact ⟨hv, by simp [create_offer, hv]⟩

/-- C6 (witness): the concrete payload with `min_amount = -1` violates its
field bound, fails validation, is rejected, and leaves the empty store
empty. -/
theorem create_rejects_invalid_payload_witness :
    bad_payload.min_amount < 0 ∧
    bad_payload.valid = false ∧
    create_offer [] bad_payload = ([], CreateResponse.validation_error) :=
  ⟨by decide,
   create_rejects_invalid_payload [] bad_payload
     (Or.inr (Or.inl (by decide)))⟩

/-- C7: no cross-field invariant is enforced: there is a payload with
`min_amount > max_amount` and `term_min_days > term_max_days` whose every
individual field meets its own bound, which validation accepts and whose
creation succeeds with a 201. -/
theorem no_crossfield_invariant :
    ∃ p : Offer, p.max_amount < p.min_amount ∧
      p.term_max_days < p.term_min_days ∧ p.valid = true ∧
      create_offer [] p = ([p], CreateResponse.created 0) := by
  have hv : crossfield_payload.valid = true := by
    simp [Offer.valid, crossfield_payload]
  exact ⟨crossfield_payload, by decide, by decide, hv,
    by simp [create_offer, hv]⟩

/-- C8: a stored record with no rating never matches a `min_rating`
filter, for every supplied bound including 0. -/
theorem min_rating_excludes_unrated (d : Offer) (v : ℚ)
    (h : d.rating = none) :
    matchesFilter (build_filter none none none none (some v)) d = false := by
  rw [build_filter_eq]
  simp [matchesFilter, h]

/-- C8 (witness): the concrete unrated record is excluded by
`min_rating = 0`. -/
theorem min_rating_excludes_unrated_witness :
    unrated_offer.rating = none ∧
    matchesFilter (build_filter none none none none (some 0)) unrated_offer
      = false :=
  ⟨rfl, min_rating_excludes_unrated unrated_offer 0 rfl⟩

/-- C9: the diagnostic endpoint is a total function of the store state:
the reported collections list never exceeds 10 names, the inner exception
of a failing store is rendered (truncated to 50 characters) as text in the
`database` status string, and a healthy store reports its first 10
collection names. -/
theorem test_database_contract (db : DbState) (env : Env) :
    (test_database db env).collections.length ≤ 10 ∧
    (∀ n e, db = DbState.failing n e →
      (test_database db env).database =
        "⚠️  Connected but Error: " ++ takeStr 50 e) ∧
    (∀ n cols, db = DbState.healthy n cols →
      (test_database db env).collections = cols.take 10) := by
  cases db with
  | unconfigured => simp [test_database]
  | failing n e => simp [test_database, list_collection_names]
  | healthy n cols =>
    refine ⟨?_, by simp, ?_⟩
    · simp [test_database, list_collection_names, List.length_take]
    · simp [test_database, list_collection_names]

/-- C9 (witness): a failing store with exception text "boom" yields a
bounded collections list and the rendered error text. -/
theorem test_database_contract_witness :
    (test_database (DbState.failing "db" "boom") ⟨true, true⟩).database =
      "⚠️  Connected but Error: " ++ takeStr 50 "boom" :=
  (test_database_contract (DbState.failing "db" "boom") ⟨true, true⟩).2.1
    "db" "boom" rfl

/-- A key-value pair whose key differs from the looked-up key is
transparent to `lookupField`. -/
theorem lookupField_cons_ne (body : List (String × JVal)) (k key : String)
    (v : JVal) (h : k ≠ key) :
    lookupField ((k, v) :: body) key = lookupField body key := by
  simp [lookupField, h]

/-- C10: body validation reads exactly the declared `Offer` fields: adding
a key outside the schema (such as `id`) to a request body never changes
the parse result, so an unknown field is silently discarded and a
client-supplied `id` is never part of the parsed payload. -/
theorem extra_body_fields_ignored :
    (∀ (body : List (String × JVal)) (k : String) (v : JVal),
      k ∉ offer_field_names →
      parse_offer_create ((k, v) :: body) = parse_offer_create body) ∧
    "id" ∉ offer_field_names := by
  refine ⟨?_, by simp [offer_field_names]⟩
  intro body k v h
  simp only [offer_field_names, List.mem_cons, List.not_mem_nil, or_false,
    not_or] at h
  obtain ⟨h1, h2, h3, h4, h5, h6, h7, h8, h9, h10, h11⟩ := h
  rw [parse_offer_create, parse_offer_create,
    lookupField_cons_ne _ _ _ _ h1, lookupField_cons_ne _ _ _ _ h2,
    lookupField_cons_ne _ _ _ _ h3, lookupField_cons_ne _ _ _ _ h4,
    lookupField_cons_ne _ _ _ _ h5, lookupField_cons_ne _ _ _ _ h6,
    lookupField_cons_ne _ _ _ _ h7, lookupField_cons_ne _ _ _ _ h8,
    lookupField_cons_ne _ _ _ _ h9, lookupField_cons_ne _ _ _ _ h10,
    lookupField_cons_ne _ _ _ _ h11]

/-- C10 (witness): prepending an `id` key to a concrete body leaves the
parse result unchanged. -/
theorem extra_body_fields_ignored_witness :
    "id" ∉ offer_field_names ∧
    parse_offer_create (("id", JVal.str "abc") :: [("name", JVal.str "Fast")])
      = parse_offer_create [("name", JVal.str "Fast")] :=
  ⟨by simp [offer_field_names],
   extra_body_fields_ignored.1 [("name", JVal.str "Fast")] "id"
     (JVal.str "abc") (by simp [offer_field_names])⟩
